import Mathlib

/-!
Verification of the core write-path logic of an e-commerce storefront:
the single-default-address trigger, the order-number allocator trigger,
uniqueness of committed order numbers, and the checkout flow (order
creation, order-item snapshotting, cart clearing).

The definitions are shallow embeddings of the SQL trigger functions found
in the migration file and of the checkout handler of the checkout page.
Ids (uuids) are modelled as naturals; monetary amounts as exact rationals;
a table is a list of rows in commit order.
-/

namespace ECommerce

/-! ## The addresses table and the single-default trigger -/

/-- A row of the `addresses` table (timestamps omitted: no logic reads them). -/
structure Address where
  id : Nat
  user_id : Nat
  type : String
  name : String
  address_line_1 : String
  address_line_2 : Option String
  city : String
  state : Option String
  postal_code : String
  country : String
  phone : Option String
  is_default : Bool
deriving Repr, DecidableEq

/-- One row of the `UPDATE addresses SET is_default = false WHERE
user_id = NEW.user_id AND id != NEW.id` statement inside the trigger:
the row is cleared exactly when it belongs to the same user and is not
the candidate row itself. -/
def clearRow (new a : Address) : Address :=
  if a.user_id = new.user_id ∧ a.id ≠ new.id then { a with is_default := false } else a

/-- The `ensure_single_default_address` trigger body: before an insert or
update of row `new`, if `new.is_default` is true every other row of the same
user gets `is_default` cleared; otherwise nothing is touched. -/
def ensure_single_default_address (state : List Address) (new : Address) : List Address :=
  if new.is_default then state.map (clearRow new) else state

/-- `INSERT INTO addresses`: the before-insert trigger runs, then the new
row is stored. -/
def insertAddress (state : List Address) (new : Address) : List Address :=
  ensure_single_default_address state new ++ [new]

/-- Replacement of the row whose id matches the updated row. -/
def replaceRow (new a : Address) : Address :=
  if a.id = new.id then new else a

/-- `UPDATE addresses ... WHERE id = new.id`, the row taking the values
`new`: when such a row exists the before-update row trigger runs and the row
is replaced; when no row matches, the row trigger never fires and the
statement touches nothing. -/
def updateAddress (state : List Address) (new : Address) : List Address :=
  if state.any (fun a => a.id == new.id) then
    (ensure_single_default_address state new).map (replaceRow new)
  else
    state

/-- `DELETE FROM addresses WHERE id = addressId` (no trigger on deletes). -/
def deleteAddress (state : List Address) (addressId : Nat) : List Address :=
  state.filter (fun a => a.id != addressId)

/-- Number of rows of user `u` with `is_default = true`. -/
def defaultCount (state : List Address) (u : Nat) : Nat :=
  state.countP (fun a => a.user_id == u && a.is_default)

/-- One committed write against the `addresses` table.  The freshness side
condition on inserts models the primary-key constraint (generated uuids do
not collide with existing rows). -/
inductive AddrStep : List Address → List Address → Prop
  | insert (s : List Address) (new : Address) (fresh : ∀ a ∈ s, a.id ≠ new.id) :
      AddrStep s (insertAddress s new)
  | update (s : List Address) (new : Address) : AddrStep s (updateAddress s new)

/-- Committed states of the `addresses` table: reachable from the empty
table by committed writes. -/
inductive AddrReachable : List Address → Prop
  | nil : AddrReachable []
  | step {s s' : List Address} : AddrReachable s → AddrStep s s' → AddrReachable s'

/-! ### Row-level facts about the trigger maps -/

theorem clearRow_id (new a : Address) : (clearRow new a).id = a.id := by
  unfold clearRow; split <;> rfl

theorem clearRow_user (new a : Address) : (clearRow new a).user_id = a.user_id := by
  unfold clearRow; split <;> rfl

theorem replaceRow_id (new a : Address) : (replaceRow new a).id = a.id := by
  unfold replaceRow; split
  case isTrue h => rw [h]
  case isFalse => rfl

theorem ids_ensure (s : List Address) (new : Address) :
    (ensure_single_default_address s new).map Address.id = s.map Address.id := by
  unfold ensure_single_default_address
  split
  · rw [List.map_map]
    exact List.map_congr_left fun a _ => clearRow_id new a
  · rfl

theorem ids_update (s : List Address) (new : Address) :
    (updateAddress s new).map Address.id = s.map Address.id := by
  unfold updateAddress
  split
  · rw [List.map_map]
    simp only [Function.comp_def]
    have : ((ensure_single_default_address s new).map
        fun a => (replaceRow new a).id) = (ensure_single_default_address s new).map Address.id :=
      List.map_congr_left fun a _ => replaceRow_id new a
    rw [this, ids_ensure]
  · rfl

/-- The combined invariant carried through reachability: primary keys are
distinct, and every user has at most one default address. -/
def AddrInv (s : List Address) : Prop :=
  (s.map Address.id).Nodup ∧ ∀ u, defaultCount s u ≤ 1

theorem addrInv_insert {s : List Address} {new : Address}
    (fresh : ∀ a ∈ s, a.id ≠ new.id) (h : AddrInv s) : AddrInv (insertAddress s new) := by
  obtain ⟨hnd, hcnt⟩ := h
  constructor
  · -- primary keys stay distinct
    unfold insertAddress
    rw [List.map_append, ids_ensure]
    simp only [List.map_cons, List.map_nil]
    rw [List.nodup_append]
    refine ⟨hnd, List.nodup_singleton _, ?_⟩
    intro x hx
    obtain ⟨a, ha, rfl⟩ := List.mem_map.mp hx
    simp only [List.mem_singleton]
    exact fun hmem => fresh a ha (by simpa using hmem)
  · -- the default count stays at most one
    intro u
    unfold insertAddress defaultCount
    rw [List.countP_append]
    by_cases hnew : new.is_default
    · by_cases hu : new.user_id = u
      · -- inserting a default row for user u: all old defaults of u are cleared
        have hz : (ensure_single_default_address s new).countP
            (fun a => a.user_id == u && a.is_default) = 0 := by
          rw [List.countP_eq_zero]
          intro a ha
          unfold ensure_single_default_address at ha
          rw [if_pos hnew] at ha
          obtain ⟨b, hb, rfl⟩ := List.mem_map.mp ha
          unfold clearRow
          by_cases hcond : b.user_id = new.user_id ∧ b.id ≠ new.id
          · simp [hcond]
          · have hbid : b.id ≠ new.id := fresh b hb
            have hbu : b.user_id ≠ new.user_id := fun hx => hcond ⟨hx, hbid⟩
            simp only [if_neg hcond, Bool.and_eq_true, beq_iff_eq, not_and]
            intro hbu'
            exact absurd (hbu'.trans hu.symm) hbu
        have hone : List.countP (fun a => a.user_id == u && a.is_default) [new] ≤ 1 := by
          simp only [List.countP_cons, List.countP_nil]
          split <;> simp
        omega
      · -- inserting for another user: u's rows are untouched defaults-wise
        have hle : (ensure_single_default_address s new).countP
            (fun a => a.user_id == u && a.is_default) ≤
            s.countP (fun a => a.user_id == u && a.is_default) := by
          unfold ensure_single_default_address
          rw [if_pos hnew, List.countP_map]
          refine List.countP_mono_left fun a _ hp => ?_
          unfold clearRow at hp
          by_cases hcond : a.user_id = new.user_id ∧ a.id ≠ new.id
          · simp [hcond] at hp
          · simpa [hcond] using hp
        have hz : List.countP (fun a => a.user_id == u && a.is_default) [new] = 0 := by
          simp [List.countP_cons, hu]
        have := hcnt u
        unfold defaultCount at this
        omega
    · -- a non-default insert: the trigger is a no-op and the new row adds nothing
      have heq : ensure_single_default_address s new = s := by
        unfold ensure_single_default_address; rw [if_neg hnew]
      have hz : List.countP (fun a => a.user_id == u && a.is_default) [new] = 0 := by
        simp [List.countP_cons, hnew]
      have := hcnt u
      unfold defaultCount at this
      rw [heq]
      omega

theorem addrInv_update {s : List Address} {new : Address}
    (h : AddrInv s) : AddrInv (updateAddress s new) := by
  obtain ⟨hnd, hcnt⟩ := h
  constructor
  · rw [ids_update]; exact hnd
  · intro u
    unfold updateAddress
    split
    case isFalse => exact hcnt u
    case isTrue hguard =>
      unfold defaultCount
      by_cases hnew : new.is_default
      · have hrw : ensure_single_default_address s new = s.map (clearRow new) := by
          unfold ensure_single_default_address; rw [if_pos hnew]
        rw [hrw, List.map_map, List.countP_map]
        simp only [Function.comp_def]
        by_cases hu : new.user_id = u
        · -- defaults of user u can only sit at the updated primary key
          have hle : s.countP
              (fun a => ((replaceRow new (clearRow new a)).user_id == u &&
                (replaceRow new (clearRow new a)).is_default)) ≤
              s.countP (fun a => a.id == new.id) := by
            refine List.countP_mono_left fun a _ hp => ?_
            by_cases hid : a.id = new.id
            · simp [hid]
            · exfalso
              by_cases hcond : a.user_id = new.user_id ∧ a.id ≠ new.id
              · have h1 : clearRow new a = { a with is_default := false } := by
                  unfold clearRow; rw [if_pos hcond]
                have h2 : replaceRow new { a with is_default := false } =
                    { a with is_default := false } := by
                  unfold replaceRow; simp [hid]
                rw [h1, h2] at hp
                simp at hp
              · have hau : a.user_id ≠ new.user_id := fun hx => hcond ⟨hx, hid⟩
                have h1 : clearRow new a = a := by
                  unfold clearRow; rw [if_neg hcond]
                have h2 : replaceRow new a = a := by
                  unfold replaceRow; simp [hid]
                rw [h1, h2] at hp
                simp only [Bool.and_eq_true, beq_iff_eq] at hp
                exact hau (hp.1.trans hu.symm)
          have hct : s.countP (fun a => a.id == new.id) ≤ 1 := by
            have : s.countP (fun a => a.id == new.id) =
                (s.map Address.id).count new.id := by
              rw [List.count, List.countP_map]; rfl
            rw [this]
            exact List.nodup_iff_count_le_one.mp hnd new.id
          omega
        · -- another user's rows are untouched
          have hle : s.countP
              (fun a => ((replaceRow new (clearRow new a)).user_id == u &&
                (replaceRow new (clearRow new a)).is_default)) ≤
              s.countP (fun a => a.user_id == u && a.is_default) := by
            refine List.countP_mono_left fun a _ hp => ?_
            by_cases hid : a.id = new.id
            · exfalso
              have h1 : (clearRow new a).id = a.id := clearRow_id new a
              have h2 : replaceRow new (clearRow new a) = new := by
                unfold replaceRow; rw [h1, if_pos hid]
              rw [h2] at hp
              simp only [Bool.and_eq_true, beq_iff_eq] at hp
              exact hu (hp.1)
            · by_cases hcond : a.user_id = new.user_id ∧ a.id ≠ new.id
              · have h1 : clearRow new a = { a with is_default := false } := by
                  unfold clearRow; rw [if_pos hcond]
                have h2 : replaceRow new { a with is_default := false } =
                    { a with is_default := false } := by
                  unfold replaceRow; simp [hid]
                rw [h1, h2] at hp
                simp at hp
              · have h1 : clearRow new a = a := by
                  unfold clearRow; rw [if_neg hcond]
                have h2 : replaceRow new a = a := by
                  unfold replaceRow; simp [hid]
                rw [h1, h2] at hp
                exact hp
          have := hcnt u
          unfold defaultCount at this
          omega
      · -- writing a non-default row can only keep or lower every count
        have hrw : ensure_single_default_address s new = s := by
          unfold ensure_single_default_address; rw [if_neg hnew]
        rw [hrw, List.countP_map]
        simp only [Function.comp_def]
        have hle : s.countP (fun a => ((replaceRow new a).user_id == u &&
            (replaceRow new a).is_default)) ≤
            s.countP (fun a => a.user_id == u && a.is_default) := by
          refine List.countP_mono_left fun a _ hp => ?_
          by_cases hid : a.id = new.id
          · exfalso
            have h2 : replaceRow new a = new := by
              unfold replaceRow; rw [if_pos hid]
            rw [h2] at hp
            simp only [Bool.and_eq_true, beq_iff_eq] at hp
            exact hnew hp.2
          · have h2 : replaceRow new a = a := by
              unfold replaceRow; rw [if_neg hid]
            rw [h2] at hp
            exact hp
        have := hcnt u
        unfold defaultCount at this
        omega

theorem addrInv_of_reachable {s : List Address} (h : AddrReachable s) : AddrInv s := by
  induction h with
  | nil => exact ⟨List.nodup_nil, fun u => by simp [defaultCount]⟩
  | step _ hstep ih =>
    cases hstep with
    | insert new fresh => exact addrInv_insert fresh ih
    | update new => exact addrInv_update ih

/-! ### Two sequential default updates -/

/-- When the updated row exists and carries the default flag, an update is
the row-by-row composition of the trigger's clearing pass and the row
replacement. -/
theorem update_eq_map (t : List Address) (new : Address) (hnew : new.is_default = true)
    (hg : (t.any fun a => a.id == new.id) = true) :
    updateAddress t new = t.map (fun a => replaceRow new (clearRow new a)) := by
  unfold updateAddress ensure_single_default_address
  rw [if_pos hg, if_pos hnew, List.map_map]
  rfl

-- Updating address A then address B of the same user, each to be the
-- default, rewrites the table row by row.
theorem twoUpdates_eq (s : List Address) (A B : Address) (u : Nat)
    (hnd : (s.map Address.id).Nodup) (hA : A ∈ s) (hB : B ∈ s) (hAB : A.id ≠ B.id)
    (huA : A.user_id = u) (huB : B.user_id = u) :
    updateAddress (updateAddress s { A with is_default := true }) { B with is_default := true } =
      s.map (fun a =>
        if a.id = A.id then { A with is_default := false }
        else if a.id = B.id then { B with is_default := true }
        else if a.user_id = u then { a with is_default := false } else a) := by
  have hg1 : (s.any fun a => a.id == ({ A with is_default := true } : Address).id) = true :=
    List.any_eq_true.mpr ⟨A, hA, by simp⟩
  have e1 : updateAddress s { A with is_default := true } =
      s.map (fun a => replaceRow { A with is_default := true }
        (clearRow { A with is_default := true } a)) :=
    update_eq_map s { A with is_default := true } rfl hg1
  have hidchain : ∀ a : Address, (replaceRow { A with is_default := true }
      (clearRow { A with is_default := true } a)).id = a.id := by
    intro a
    rw [replaceRow_id, clearRow_id]
  have hg2 : ((updateAddress s { A with is_default := true }).any
      fun a => a.id == ({ B with is_default := true } : Address).id) = true := by
    rw [e1]
    refine List.any_eq_true.mpr ⟨_, List.mem_map_of_mem _ hB, ?_⟩
    rw [hidchain B]
    simp
  have e2 : updateAddress (updateAddress s { A with is_default := true })
      { B with is_default := true } =
      (updateAddress s { A with is_default := true }).map
        (fun a => replaceRow { B with is_default := true }
          (clearRow { B with is_default := true } a)) :=
    update_eq_map _ { B with is_default := true } rfl hg2
  rw [e2, e1, List.map_map]
  refine List.map_congr_left fun a ha => ?_
  have inj := List.inj_on_of_nodup_map hnd
  simp only [Function.comp_def]
  by_cases h1 : a.id = A.id
  · have haA : a = A := inj ha hA h1
    subst haA
    have c1 : clearRow { a with is_default := true } a = a := by
      unfold clearRow
      rw [if_neg (fun hc => hc.2 rfl)]
    have c2 : replaceRow { a with is_default := true } a = { a with is_default := true } := by
      unfold replaceRow
      rw [if_pos rfl]
    rw [c1, c2]
    have c3 : clearRow { B with is_default := true } { a with is_default := true } =
        { a with is_default := false } := by
      unfold clearRow
      rw [if_pos ⟨huA.trans huB.symm, hAB⟩]
    rw [c3]
    have c4 : replaceRow { B with is_default := true } { a with is_default := false } =
        { a with is_default := false } := by
      unfold replaceRow
      rw [if_neg hAB]
    rw [c4, if_pos rfl]
  · by_cases h2 : a.id = B.id
    · have haB : a = B := inj ha hB h2
      subst haB
      have c1 : clearRow { A with is_default := true } a = { a with is_default := false } := by
        unfold clearRow
        rw [if_pos ⟨huB.trans huA.symm, h1⟩]
      have c2 : replaceRow { A with is_default := true } { a with is_default := false } =
          { a with is_default := false } := by
        unfold replaceRow
        rw [if_neg h1]
      rw [c1, c2]
      have c3 : clearRow { a with is_default := true } { a with is_default := false } =
          { a with is_default := false } := by
        unfold clearRow
        rw [if_neg (fun hc => hc.2 rfl)]
      have c4 : replaceRow { a with is_default := true } { a with is_default := false } =
          { a with is_default := true } := by
        unfold replaceRow
        rw [if_pos rfl]
      rw [c3, c4, if_neg h1, if_pos rfl]
    · by_cases h3 : a.user_id = u
      · have c1 : clearRow { A with is_default := true } a = { a with is_default := false } := by
          unfold clearRow
          rw [if_pos ⟨h3.trans huA.symm, h1⟩]
        have c2 : replaceRow { A with is_default := true } { a with is_default := false } =
            { a with is_default := false } := by
          unfold replaceRow
          rw [if_neg h1]
        have c3 : clearRow { B with is_default := true } { a with is_default := false } =
            { a with is_default := false } := by
          unfold clearRow
          by_cases hc : a.user_id = B.user_id ∧ a.id ≠ B.id
          · rw [if_pos hc]
          · rw [if_neg hc]
        have c4 : replaceRow { B with is_default := true } { a with is_default := false } =
            { a with is_default := false } := by
          unfold replaceRow
          rw [if_neg h2]
        rw [c1, c2, c3, c4, if_neg h1, if_neg h2, if_pos h3]
      · have hu1 : ¬(a.user_id = ({ A with is_default := true } : Address).user_id ∧
            a.id ≠ ({ A with is_default := true } : Address).id) := by
          intro hc
          exact h3 (hc.1.trans huA)
        have hu2 : ¬(a.user_id = ({ B with is_default := true } : Address).user_id ∧
            a.id ≠ ({ B with is_default := true } : Address).id) := by
          intro hc
          exact h3 (hc.1.trans huB)
        have c1 : clearRow { A with is_default := true } a = a := by
          unfold clearRow
          rw [if_neg hu1]
        have c2 : replaceRow { A with is_default := true } a = a := by
          unfold replaceRow
          rw [if_neg h1]
        have c3 : clearRow { B with is_default := true } a = a := by
          unfold clearRow
          rw [if_neg hu2]
        have c4 : replaceRow { B with is_default := true } a = a := by
          unfold replaceRow
          rw [if_neg h2]
        rw [c1, c2, c3, c4, if_neg h1, if_neg h2, if_neg h3]

/-! ### Claim theorems about addresses -/

/-- C1: for every user and every sequence of committed Address inserts and
updates with arbitrary is-default values, after each committed write the
number of Address rows owned by that user with `is_default = true` is 0
or 1. -/
theorem claim_single_default_invariant (s : List Address) (h : AddrReachable s) (u : Nat) :
    defaultCount s u ≤ 1 :=
  (addrInv_of_reachable h).2 u

/-- Sample address row used by concrete witnesses. -/
def addrA : Address :=
  { id := 1, user_id := 7, type := "home", name := "Alice", address_line_1 := "1 Main St",
    address_line_2 := none, city := "Springfield", state := some "IL", postal_code := "62701",
    country := "United States", phone := none, is_default := true }

/-- Second sample address row of the same user, also marked default. -/
def addrB : Address :=
  { id := 2, user_id := 7, type := "work", name := "Alice", address_line_1 := "9 Oak Ave",
    address_line_2 := some "Suite 4", city := "Springfield", state := some "IL",
    postal_code := "62702", country := "United States", phone := some "555-0100",
    is_default := true }

/-- Third sample address row of the same user, not marked default. -/
def addrC : Address :=
  { id := 3, user_id := 7, type := "other", name := "Alice", address_line_1 := "5 Elm Rd",
    address_line_2 := none, city := "Springfield", state := none, postal_code := "62703",
    country := "United States", phone := none, is_default := false }

theorem claim_single_default_invariant_witness :
    defaultCount (insertAddress (insertAddress [] addrA) addrB) 7 ≤ 1 :=
  claim_single_default_invariant _
    (AddrReachable.step
      (AddrReachable.step AddrReachable.nil (AddrStep.insert [] addrA (by decide)))
      (AddrStep.insert _ addrB (by decide))) 7

/-- C6: for a user owning addresses `A` and `B`, setting `is_default = true`
on `A` and then on `B` (two sequential committed writes) leaves `B` as the
unique default for that user and `A` with `is_default = false`. -/
theorem claim_default_switch (s : List Address) (A B : Address) (u : Nat)
    (hnd : (s.map Address.id).Nodup) (hA : A ∈ s) (hB : B ∈ s) (hAB : A.id ≠ B.id)
    (huA : A.user_id = u) (huB : B.user_id = u) :
    ({ B with is_default := true } ∈
      updateAddress (updateAddress s { A with is_default := true })
        { B with is_default := true }) ∧
    ({ A with is_default := false } ∈
      updateAddress (updateAddress s { A with is_default := true })
        { B with is_default := true }) ∧
    defaultCount (updateAddress (updateAddress s { A with is_default := true })
        { B with is_default := true }) u = 1 ∧
    ∀ r ∈ updateAddress (updateAddress s { A with is_default := true })
        { B with is_default := true }, r.user_id = u → r.is_default = true → r.id = B.id := by
  rw [twoUpdates_eq s A B u hnd hA hB hAB huA huB]
  refine ⟨?_, ?_, ?_, ?_⟩
  · refine List.mem_map.mpr ⟨B, hB, ?_⟩
    beta_reduce
    rw [if_neg (fun h => hAB h.symm), if_pos rfl]
  · refine List.mem_map.mpr ⟨A, hA, ?_⟩
    beta_reduce
    rw [if_pos rfl]
  · unfold defaultCount
    rw [List.countP_map]
    simp only [Function.comp_def]
    have hcg : s.countP (fun a =>
        ((if a.id = A.id then { A with is_default := false }
          else if a.id = B.id then { B with is_default := true }
          else if a.user_id = u then { a with is_default := false } else a : Address).user_id
            == u &&
         (if a.id = A.id then { A with is_default := false }
          else if a.id = B.id then { B with is_default := true }
          else if a.user_id = u then { a with is_default := false } else a : Address).is_default))
        = s.countP (fun a => a.id == B.id) := by
      refine List.countP_congr fun a _ => ?_
      by_cases h1 : a.id = A.id
      · rw [if_pos h1]
        simp [h1, hAB]
      · rw [if_neg h1]
        by_cases h2 : a.id = B.id
        · rw [if_pos h2]
          simp [h2, huB]
        · rw [if_neg h2]
          by_cases h3 : a.user_id = u
          · rw [if_pos h3]
            simp [h2]
          · rw [if_neg h3]
            simp [h2, h3]
    rw [hcg]
    have : s.countP (fun a => a.id == B.id) = (s.map Address.id).count B.id := by
      rw [List.count, List.countP_map]
      rfl
    rw [this]
    exact List.count_eq_one_of_mem hnd (List.mem_map_of_mem _ hB)
  · intro r hr hru hrd
    obtain ⟨a, ha, rfl⟩ := List.mem_map.mp hr
    by_cases h1 : a.id = A.id
    · rw [if_pos h1] at hrd
      exact absurd hrd (by simp)
    · by_cases h2 : a.id = B.id
      · rw [if_neg h1, if_pos h2]
      · rw [if_neg h1, if_neg h2] at hrd hru
        by_cases h3 : a.user_id = u
        · rw [if_pos h3] at hrd
          exact absurd hrd (by simp)
        · rw [if_neg h3] at hru
          exact absurd hru h3

theorem claim_default_switch_witness :
    ({ addrB with is_default := true } ∈
      updateAddress (updateAddress [addrA, addrB] { addrA with is_default := true })
        { addrB with is_default := true }) ∧
    ({ addrA with is_default := false } ∈
      updateAddress (updateAddress [addrA, addrB] { addrA with is_default := true })
        { addrB with is_default := true }) ∧
    defaultCount (updateAddress (updateAddress [addrA, addrB] { addrA with is_default := true })
        { addrB with is_default := true }) 7 = 1 ∧
    ∀ r ∈ updateAddress (updateAddress [addrA, addrB] { addrA with is_default := true })
        { addrB with is_default := true }, r.user_id = 7 → r.is_default = true →
          r.id = addrB.id :=
  claim_default_switch [addrA, addrB] addrA addrB 7 (by decide) (by decide) (by decide)
    (by decide) (by decide) (by decide)

/-- C7: a write whose candidate row has `is_default = false` leaves the
single-default hook inert: the hook touches no sibling row, an insert only
appends the candidate, an update keeps every other row, and a first insert
with `is_default = false` leaves the user with zero defaults. -/
theorem claim_nondefault_frame (s : List Address) (new : Address)
    (h : new.is_default = false) :
    ensure_single_default_address s new = s ∧
    insertAddress s new = s ++ [new] ∧
    (∀ r ∈ s, r.id ≠ new.id → r ∈ updateAddress s new) ∧
    (∀ u, defaultCount (insertAddress [] new) u = 0) := by
  have hhook : ensure_single_default_address s new = s := by
    unfold ensure_single_default_address
    rw [if_neg (by simp [h])]
  refine ⟨hhook, ?_, ?_, ?_⟩
  · unfold insertAddress
    rw [hhook]
  · intro r hr hrid
    unfold updateAddress
    split
    · rw [show ensure_single_default_address s new = s from by
        unfold ensure_single_default_address
        rw [if_neg (by simp [h])]]
      have : replaceRow new r = r := by
        unfold replaceRow
        rw [if_neg hrid]
      rw [show r = replaceRow new r from this.symm]
      exact List.mem_map_of_mem _ hr
    · exact hr
  · intro u
    unfold insertAddress defaultCount ensure_single_default_address
    rw [if_neg (by simp [h])]
    simp [List.countP_cons, h]

theorem claim_nondefault_frame_witness :
    ensure_single_default_address [addrA] addrC = [addrA] ∧
    insertAddress [addrA] addrC = [addrA] ++ [addrC] ∧
    (∀ r ∈ [addrA], r.id ≠ addrC.id → r ∈ updateAddress [addrA] addrC) ∧
    (∀ u, defaultCount (insertAddress [] addrC) u = 0) :=
  claim_nondefault_frame [addrA] addrC (by decide)

/-! ## The orders table and the order-number allocator -/

/-- The snapshotted shipping address stored on an order: the jsonb object
built field by field at checkout. -/
structure ShippingAddress where
  name : String
  address_line_1 : String
  address_line_2 : Option String
  city : String
  state : Option String
  postal_code : String
  country : String
  phone : Option String
deriving Repr, DecidableEq

/-- A row of the `orders` table (timestamps omitted).  A missing
(`NULL`) order number and an empty one are both modelled as `""`, matching
the trigger's `IS NULL OR = ''` test. -/
structure Order where
  id : Nat
  order_number : String
  user_id : Nat
  status : String
  payment_status : String
  total_amount : ℚ
  shipping_amount : ℚ
  tax_amount : ℚ
  discount_amount : ℚ
  currency : String
  shipping_address : ShippingAddress
  billing_address : Option ShippingAddress
  payment_method : Option String
  payment_id : Option String
  notes : Option String
deriving Repr, DecidableEq

/-- The `LIKE 'pre%'` test: `pre` is a prefix of `s`.  Stated over the
character data because the byte-position based core string functions do not
reduce in the kernel. -/
def strHasPrefix (s pre : String) : Bool :=
  pre.data.isPrefixOf s.data

/-- Removal of surrounding whitespace, which Postgres casts accept. -/
def strTrim (s : String) : String :=
  String.mk (((s.data.dropWhile Char.isWhitespace).reverse.dropWhile
    Char.isWhitespace).reverse)

/-- `SUBSTRING(s FROM 14)`: the characters from 1-based position 14 on. -/
def strFrom14 (s : String) : String :=
  String.mk (s.data.drop 13)

/-- Value of a string of decimal digits. -/
def digitsVal (cs : List Char) : Nat :=
  cs.foldl (fun n c => n * 10 + (c.toNat - 48)) 0

/-- Postgres `CAST(t AS INTEGER)`: optional surrounding whitespace, optional
sign, then one or more decimal digits; anything else raises an error,
modelled as `none`. -/
def castInt (t : String) : Option Int :=
  let s := strTrim t
  let neg := strHasPrefix s "-"
  let core := if neg || strHasPrefix s "+" then String.mk (s.data.drop 1) else s
  if !core.data.isEmpty && core.data.all Char.isDigit then
    some (if neg then -(digitsVal core.data : Int) else (digitsVal core.data : Int))
  else
    none

/-- Postgres `LPAD(s, len, fill)` with a one-character fill: pad on the left
up to `len`, truncating on the right when `s` is already longer. -/
def lpad (s : String) (len : Nat) (fill : Char) : String :=
  if len ≤ s.data.length then String.mk (s.data.take len)
  else String.mk (List.replicate (len - s.data.length) fill ++ s.data)

/-- The suffixes `SUBSTRING(order_number FROM 14)` of the rows selected by
`order_number LIKE 'ORD-' || day || '-%'`. -/
def daySuffixes (orders : List Order) (day : String) : List String :=
  (orders.filter (fun o => strHasPrefix o.order_number ("ORD-" ++ day ++ "-"))).map
    (fun o => strFrom14 o.order_number)

/-- The allocator's subquery `COALESCE(MAX(CAST(... AS INTEGER)), 0)`: it
raises when any selected suffix fails the cast, and otherwise yields the
maximum cast value, `0` when no row matches the day. -/
def daySuffixMax (orders : List Order) (day : String) : Except String Int :=
  if (daySuffixes orders day).all (fun s => (castInt s).isSome) then
    .ok ((((daySuffixes orders day).filterMap castInt).max?).getD 0)
  else
    .error "invalid input syntax for type integer"

/-- The `set_order_number` trigger: when the candidate's order number is
missing or empty it becomes `'ORD-' || day || '-' || LPAD(max + 1, 4, '0')`;
otherwise the candidate is returned untouched.  `day` stands for
`TO_CHAR(NOW(), 'YYYYMMDD')`. -/
def set_order_number (orders : List Order) (day : String) (new : Order) :
    Except String Order :=
  if new.order_number = "" then
    match daySuffixMax orders day with
    | .error e => .error e
    | .ok mx =>
        .ok { new with order_number := "ORD-" ++ day ++ "-" ++ lpad (toString (mx + 1)) 4 '0' }
  else
    .ok new

/-- `INSERT INTO orders`: the before-insert trigger runs, then the UNIQUE
constraint on `order_number` and the primary key are checked; on success the
stored row is appended and returned (the client's `.select().single()`). -/
def insertOrder (orders : List Order) (day : String) (new : Order) :
    Except String (List Order × Order) :=
  match set_order_number orders day new with
  | .error e => .error e
  | .ok row =>
      if orders.any (fun o => o.order_number == row.order_number) then
        .error "duplicate key value violates unique constraint"
      else if orders.any (fun o => o.id == row.id) then
        .error "duplicate key value violates orders primary key"
      else
        .ok (orders ++ [row], row)

/-- Decidable equality for `Except` results, used to evaluate the model on
concrete inputs. -/
instance {ε α : Type} [DecidableEq ε] [DecidableEq α] : DecidableEq (Except ε α) :=
  fun a b =>
    match a, b with
    | .error e, .error f =>
      if h : e = f then isTrue (h ▸ rfl) else isFalse (fun hc => h (Except.error.inj hc))
    | .error _, .ok _ => isFalse (fun hc => Except.noConfusion hc)
    | .ok _, .error _ => isFalse (fun hc => Except.noConfusion hc)
    | .ok x, .ok y =>
      if h : x = y then isTrue (h ▸ rfl) else isFalse (fun hc => h (Except.ok.inj hc))

/-- Committed states of the `orders` table: reachable from the empty table
by committed inserts (the only write the system issues against it). -/
inductive OrdersReachable : List Order → Prop
  | nil : OrdersReachable []
  | step {s : List Order} {day : String} {new : Order} {s' : List Order} {row : Order} :
      OrdersReachable s → insertOrder s day new = .ok (s', row) → OrdersReachable s'

/-- Unfolding an order insert once the trigger's result is known. -/
theorem insertOrder_eq_ok (orders : List Order) (day : String) (new row : Order)
    (hset : set_order_number orders day new = .ok row) :
    insertOrder orders day new =
      if orders.any (fun o => o.order_number == row.order_number) then
        .error "duplicate key value violates unique constraint"
      else if orders.any (fun o => o.id == row.id) then
        .error "duplicate key value violates orders primary key"
      else
        .ok (orders ++ [row], row) := by
  unfold insertOrder
  rw [hset]

/-- What a successful order insert guarantees: the state is extended by the
stored row, and that row collides with no existing order number or id. -/
theorem insertOrder_ok {s : List Order} {day : String} {new : Order}
    {s' : List Order} {row : Order}
    (h : insertOrder s day new = .ok (s', row)) :
    s' = s ++ [row] ∧ (∀ o ∈ s, o.order_number ≠ row.order_number) ∧
      (∀ o ∈ s, o.id ≠ row.id) := by
  cases hset : set_order_number s day new with
  | error e => unfold insertOrder at h; rw [hset] at h; exact absurd h (by simp)
  | ok r =>
    rw [insertOrder_eq_ok s day new r hset] at h
    split at h
    · exact absurd h (by simp)
    · split at h
      · exact absurd h (by simp)
      · rename_i h1 h2
        simp only [Except.ok.injEq, Prod.mk.injEq] at h
        obtain ⟨hs', hrow⟩ := h
        subst hrow
        refine ⟨hs'.symm, ?_, ?_⟩
        · intro o ho heq
          exact h1 (List.any_eq_true.mpr ⟨o, ho, by simp [heq]⟩)
        · intro o ho heq
          exact h2 (List.any_eq_true.mpr ⟨o, ho, by simp [heq]⟩)

/-! ### Claim theorems about the allocator -/

/-- C3: inserting an Order whose order-number field is already populated
with a non-empty value leaves that value unchanged in the stored record
after the insert commits. -/
theorem claim_preassigned_number_kept (orders : List Order) (day : String) (new : Order)
    (hne : new.order_number ≠ "") (s' : List Order) (row : Order)
    (h : insertOrder orders day new = .ok (s', row)) :
    row = new ∧ row.order_number = new.order_number ∧ s' = orders ++ [new] := by
  have hset : set_order_number orders day new = .ok new := by
    unfold set_order_number
    rw [if_neg hne]
  rw [insertOrder_eq_ok orders day new new hset] at h
  split at h
  · exact absurd h (by simp)
  · split at h
    · exact absurd h (by simp)
    · simp only [Except.ok.injEq, Prod.mk.injEq] at h
      obtain ⟨hs', hrow⟩ := h
      exact ⟨hrow.symm, by rw [hrow], hs'.symm⟩

/-- Sample snapshotted shipping address for concrete witnesses. -/
def shipSample : ShippingAddress :=
  { name := "Alice", address_line_1 := "1 Main St", address_line_2 := none,
    city := "Springfield", state := some "IL", postal_code := "62701",
    country := "United States", phone := none }

/-- Sample order carrying a pre-assigned order number. -/
def orderPre : Order :=
  { id := 10, order_number := "ORD-20250101-0007", user_id := 7, status := "confirmed",
    payment_status := "pending", total_amount := 54, shipping_amount := 0, tax_amount := 4,
    discount_amount := 0, currency := "USD", shipping_address := shipSample,
    billing_address := none, payment_method := some "cod", payment_id := none, notes := none }

theorem claim_preassigned_number_kept_witness :
    orderPre = orderPre ∧ orderPre.order_number = orderPre.order_number ∧
      ([orderPre] : List Order) = [] ++ [orderPre] :=
  claim_preassigned_number_kept [] "20250101" orderPre (by decide) [orderPre] orderPre rfl

/-- C2: inserting an Order with an absent or empty order number on day `D`,
when the existing rows with the day's prefix carry parseable suffixes
`1..N` (none for a fresh day, `N = 0`), assigns order number
`ORD-D-(N+1)` with the suffix zero-padded to four digits; for the first
insert of a new day the padded suffix is `0001`. -/
theorem claim_allocator_next_number (orders : List Order) (day : String) (N : Nat)
    (new : Order) (hempty : new.order_number = "")
    (hparse : ∀ s ∈ daySuffixes orders day,
      ∃ k : Nat, 1 ≤ k ∧ k ≤ N ∧ castInt s = some (k : Int))
    (hmax : N = 0 ∨ ∃ s ∈ daySuffixes orders day, castInt s = some (N : Int)) :
    set_order_number orders day new =
      .ok { new with
        order_number := "ORD-" ++ day ++ "-" ++ lpad (toString ((N : Int) + 1)) 4 '0' } ∧
    (N = 0 → lpad (toString ((N : Int) + 1)) 4 '0' = "0001") := by
  have hall : (daySuffixes orders day).all (fun s => (castInt s).isSome) = true := by
    rw [List.all_eq_true]
    intro s hs
    obtain ⟨k, _, _, hk⟩ := hparse s hs
    rw [hk]
    rfl
  have hvals : ∀ v ∈ (daySuffixes orders day).filterMap castInt,
      1 ≤ v ∧ v ≤ (N : Int) := by
    intro v hv
    obtain ⟨s, hs, hcs⟩ := List.mem_filterMap.mp hv
    obtain ⟨k, hk1, hk2, hk⟩ := hparse s hs
    rw [hk] at hcs
    obtain rfl := Option.some.inj hcs
    constructor
    · exact_mod_cast hk1
    · exact_mod_cast hk2
  have hmx : (((daySuffixes orders day).filterMap castInt).max?).getD 0 = (N : Int) := by
    rcases hmax with rfl | ⟨s, hs, hsN⟩
    · have hnil : (daySuffixes orders day).filterMap castInt = [] := by
        rw [List.eq_nil_iff_forall_not_mem]
        intro v hv
        have := hvals v hv
        omega
      rw [hnil]
      rfl
    · have hmem : (N : Int) ∈ (daySuffixes orders day).filterMap castInt :=
        List.mem_filterMap.mpr ⟨s, hs, hsN⟩
      have hanti : Std.Antisymm ((· : Int) ≤ ·) := ⟨fun h1 h2 => le_antisymm h1 h2⟩
      have hsome : ((daySuffixes orders day).filterMap castInt).max? = some (N : Int) := by
        rw [List.max?_eq_some_iff (fun a => le_refl a) (fun a b => max_choice a b)
          (fun a b c => max_le_iff)]
        exact ⟨hmem, fun b hb => (hvals b hb).2⟩
      rw [hsome]
      rfl
  have hd : daySuffixMax orders day = .ok (N : Int) := by
    unfold daySuffixMax
    rw [if_pos hall, hmx]
  constructor
  · unfold set_order_number
    rw [if_pos hempty, hd]
  · intro hN0
    subst hN0
    decide

/-- Sample order with an empty (to-be-generated) order number. -/
def orderBlank : Order :=
  { id := 21, order_number := "", user_id := 7, status := "confirmed",
    payment_status := "pending", total_amount := 27, shipping_amount := 0, tax_amount := 2,
    discount_amount := 0, currency := "USD", shipping_address := shipSample,
    billing_address := none, payment_method := some "cod", payment_id := none, notes := none }

/-- Existing order of the same day whose 4-digit suffix is 0001. -/
def orderDay1 : Order :=
  { orderPre with id := 30, order_number := "ORD-20250917-0001" }

/-- Existing order of the same day whose 4-digit suffix is 0002. -/
def orderDay2 : Order :=
  { orderPre with id := 31, order_number := "ORD-20250917-0002" }

theorem claim_allocator_next_number_witness :
    (set_order_number [orderDay1, orderDay2] "20250917" orderBlank =
      .ok { orderBlank with
        order_number := "ORD-" ++ "20250917" ++ "-" ++ lpad (toString ((2 : Int) + 1)) 4 '0' } ∧
      ((2 : Nat) = 0 → lpad (toString (((2 : Nat) : Int) + 1)) 4 '0' = "0001")) ∧
    (set_order_number [] "20250917" orderBlank =
      .ok { orderBlank with
        order_number := "ORD-" ++ "20250917" ++ "-" ++ lpad (toString ((0 : Int) + 1)) 4 '0' } ∧
      ((0 : Nat) = 0 → lpad (toString (((0 : Nat) : Int) + 1)) 4 '0' = "0001")) :=
  ⟨claim_allocator_next_number [orderDay1, orderDay2] "20250917" 2 orderBlank (by decide)
    (by
      intro s hs
      rw [show daySuffixes [orderDay1, orderDay2] "20250917" = ["0001", "0002"] from by decide]
        at hs
      simp only [List.mem_cons, List.not_mem_nil, or_false] at hs
      rcases hs with rfl | rfl
      · exact ⟨1, by decide, by decide, by decide⟩
      · exact ⟨2, by decide, by decide, by decide⟩)
    (Or.inr ⟨"0002", by decide, by decide⟩),
   claim_allocator_next_number [] "20250917" 0 orderBlank (by decide)
    (by
      intro s hs
      rw [show daySuffixes [] "20250917" = [] from by decide] at hs
      exact absurd hs (by simp))
    (Or.inl rfl)⟩

/-- Order whose day-matching number carries a suffix the cast cannot parse. -/
def orderBadSuffix : Order :=
  { orderPre with id := 32, order_number := "ORD-20250917-00AB" }

/-- C4 counterexample: with an existing row `ORD-20250917-00AB`, allocating a
number for an empty-numbered candidate raises the cast error and the insert
aborts, contrary to the claim that it always completes with such rows
contributing 0. -/
theorem claim_allocator_parse_counterexample :
    set_order_number [orderBadSuffix] "20250917" orderBlank =
      .error "invalid input syntax for type integer" ∧
    insertOrder [orderBadSuffix] "20250917" orderBlank =
      .error "invalid input syntax for type integer" := by
  constructor
  · decide
  · decide

/-- C4 (amended): the allocator completes without error whenever every
existing row matching the day's prefix has a suffix that parses as an
integer (in particular `COALESCE` covers the no-rows case); a row with a
missing or non-parseable suffix makes the cast raise, aborting the insert. -/
theorem claim_allocator_total_when_parseable (orders : List Order) (day : String)
    (new : Order) (h : ∀ s ∈ daySuffixes orders day, (castInt s).isSome) :
    ∃ row, set_order_number orders day new = .ok row := by
  by_cases he : new.order_number = ""
  · have hall : (daySuffixes orders day).all (fun s => (castInt s).isSome) = true :=
      List.all_eq_true.mpr h
    obtain ⟨m, hm⟩ : ∃ m, daySuffixMax orders day = .ok m :=
      ⟨_, by unfold daySuffixMax; rw [if_pos hall]⟩
    refine ⟨{ new with order_number := "ORD-" ++ day ++ "-" ++ lpad (toString (m + 1)) 4 '0' }, ?_⟩
    unfold set_order_number
    rw [if_pos he, hm]
  · refine ⟨new, ?_⟩
    unfold set_order_number
    rw [if_neg he]

theorem claim_allocator_total_when_parseable_witness :
    ∃ row, set_order_number [orderDay1, orderDay2] "20250917" orderBlank = .ok row :=
  claim_allocator_total_when_parseable [orderDay1, orderDay2] "20250917" orderBlank
    (by decide)

/-- C5: in every reachable committed state of the orders table all rows have
pairwise distinct order numbers, and an insert that would duplicate an
existing order number is never committed. -/
theorem claim_order_numbers_unique (s : List Order) (h : OrdersReachable s) :
    (s.map Order.order_number).Nodup ∧
    ∀ (day : String) (new : Order) (s' : List Order) (row : Order),
      insertOrder s day new = .ok (s', row) →
        row.order_number ∉ s.map Order.order_number := by
  constructor
  · induction h with
    | nil => simp
    | step hr hins ih =>
      obtain ⟨rfl, hnodup, _⟩ := insertOrder_ok hins
      rw [List.map_append]
      simp only [List.map_cons, List.map_nil]
      rw [List.nodup_append]
      refine ⟨ih, List.nodup_singleton _, ?_⟩
      intro x hx
      obtain ⟨o, ho, rfl⟩ := List.mem_map.mp hx
      simp only [List.mem_singleton]
      exact fun hmem => hnodup o ho (by simpa using hmem)
  · intro day new s' row hins hmem
    obtain ⟨_, hnodup, _⟩ := insertOrder_ok hins
    obtain ⟨o, ho, hoe⟩ := List.mem_map.mp hmem
    exact hnodup o ho hoe

theorem claim_order_numbers_unique_witness :
    (([orderPre] : List Order).map Order.order_number).Nodup ∧
    ∀ (day : String) (new : Order) (s' : List Order) (row : Order),
      insertOrder [orderPre] day new = .ok (s', row) →
        row.order_number ∉ ([orderPre] : List Order).map Order.order_number :=
  claim_order_numbers_unique [orderPre]
    (OrdersReachable.step OrdersReachable.nil
      (show insertOrder [] "20250101" orderPre = .ok ([orderPre], orderPre) from rfl))

/-! ## The checkout flow -/

/-- The product fields the checkout reads (`item.product`). -/
structure Product where
  id : Nat
  name : String
  sku : Option String
  price : ℚ
deriving Repr, DecidableEq

/-- A cart item joined with its product, as the cart context loads it. -/
structure CartItem where
  id : Nat
  product_id : Nat
  quantity : Nat
  product : Product
deriving Repr, DecidableEq

/-- Modelled from the spec: `getCartTotal` lives in the cart context
(`src/contexts/CartContext`), which is not among the sources; the checkout
subtotal is the sum over cart items of unit price times quantity. -/
def getCartTotal (items : List CartItem) : ℚ :=
  items.foldl (fun acc it => acc + it.product.price * (it.quantity : ℚ)) 0

/-- Modelled from the spec: `clearCart` (also in the missing cart context)
empties the user's cart. -/
def clearCart (_items : List CartItem) : List CartItem :=
  []

/-- A row of the `order_items` table (id and timestamp omitted). -/
structure OrderItem where
  order_id : Nat
  product_id : Nat
  product_name : String
  product_sku : Option String
  quantity : Nat
  unit_price : ℚ
  total_price : ℚ
deriving Repr, DecidableEq

/-- The jsonb `shipping_address` object built in `handlePaymentSubmit`: a
field-by-field copy of the selected address. -/
def shippingSnapshot (a : Address) : ShippingAddress :=
  { name := a.name, address_line_1 := a.address_line_1,
    address_line_2 := a.address_line_2, city := a.city, state := a.state,
    postal_code := a.postal_code, country := a.country, phone := a.phone }

/-- The `orderData` record built in `handlePaymentSubmit`; `oid` stands for
the uuid the database generates, and the order number is left empty for the
trigger to fill. -/
def mkOrderData (uid oid : Nat) (cart : List CartItem) (addr : Address)
    (paymentMethod : String) : Order :=
  { id := oid
    order_number := ""
    user_id := uid
    status := "confirmed"
    payment_status := if paymentMethod = "cod" then "pending" else "paid"
    total_amount := getCartTotal cart * 1.08
    shipping_amount := 0
    tax_amount := getCartTotal cart * 0.08
    discount_amount := 0
    currency := "USD"
    shipping_address := shippingSnapshot addr
    billing_address := none
    payment_method := some paymentMethod
    payment_id := none
    notes := none }

/-- The `orderItems` array built in `handlePaymentSubmit`: one snapshot row
per cart item. -/
def mkOrderItems (orderId : Nat) (cart : List CartItem) : List OrderItem :=
  cart.map (fun item =>
    { order_id := orderId, product_id := item.product_id,
      product_name := item.product.name, product_sku := item.product.sku,
      quantity := item.quantity, unit_price := item.product.price,
      total_price := item.product.price * (item.quantity : ℚ) })

/-- The checkout page's card form state. -/
structure PaymentForm where
  cardNumber : String
  expiryDate : String
  cvv : String
  cardName : String
deriving Repr, DecidableEq

/-- The card-details validation at the top of `handlePaymentSubmit`. -/
def cardDetailsMissing (paymentMethod : String) (form : PaymentForm) : Bool :=
  paymentMethod == "card" &&
    (strTrim form.cardNumber == "" || strTrim form.expiryDate == "" ||
     strTrim form.cvv == "" || strTrim form.cardName == "")

/-- The three tables the checkout and address screens touch. -/
structure DB where
  addresses : List Address
  orders : List Order
  order_items : List OrderItem
deriving Repr, DecidableEq

/-- An address insert touches only the addresses table. -/
def dbInsertAddress (db : DB) (new : Address) : DB :=
  { db with addresses := insertAddress db.addresses new }

/-- An address update touches only the addresses table. -/
def dbUpdateAddress (db : DB) (new : Address) : DB :=
  { db with addresses := updateAddress db.addresses new }

/-- An address delete touches only the addresses table. -/
def dbDeleteAddress (db : DB) (addressId : Nat) : DB :=
  { db with addresses := deleteAddress db.addresses addressId }

/-- Outcome of one checkout submission: database, cart and screen state. -/
structure CheckoutResult where
  db : DB
  cart : List CartItem
  error : Option String
  orderPlaced : Bool
  newOrderId : Option String
deriving Repr, DecidableEq

/-- `handlePaymentSubmit`: validate card details, insert the order (the
order-number trigger and the constraints run inside the insert), insert the
order items, and only then clear the cart.  `day` is the server date and
`itemsInsertFails` injects the external failure mode of the order-items
insert, which is not under the client's control. -/
def handlePaymentSubmit (db : DB) (cart : List CartItem) (uid oid : Nat) (addr : Address)
    (paymentMethod : String) (form : PaymentForm) (day : String)
    (itemsInsertFails : Bool) : CheckoutResult :=
  if cardDetailsMissing paymentMethod form then
    { db := db, cart := cart, error := some "Please fill in all card details",
      orderPlaced := false, newOrderId := none }
  else
    match insertOrder db.orders day (mkOrderData uid oid cart addr paymentMethod) with
    | .error e =>
        { db := db, cart := cart, error := some ("Error placing order: " ++ e),
          orderPlaced := false, newOrderId := none }
    | .ok (orders', row) =>
        if itemsInsertFails then
          { db := { db with orders := orders' }, cart := cart,
            error := some "Error placing order: order items insert failed",
            orderPlaced := false, newOrderId := none }
        else
          { db := { db with orders := orders', order_items := db.order_items ++ mkOrderItems row.id cart },
            cart := clearCart cart, error := none, orderPlaced := true,
            newOrderId := some row.order_number }

/-! ### Unfoldings of the checkout branches -/

theorem handlePaymentSubmit_cardMissing (db : DB) (cart : List CartItem) (uid oid : Nat)
    (addr : Address) (pm : String) (form : PaymentForm) (day : String) (b : Bool)
    (hcard : cardDetailsMissing pm form = true) :
    handlePaymentSubmit db cart uid oid addr pm form day b =
      { db := db, cart := cart, error := some "Please fill in all card details",
        orderPlaced := false, newOrderId := none } := by
  unfold handlePaymentSubmit
  rw [if_pos hcard]

theorem handlePaymentSubmit_orderFail (db : DB) (cart : List CartItem) (uid oid : Nat)
    (addr : Address) (pm : String) (form : PaymentForm) (day : String) (b : Bool)
    (e : String) (hcard : cardDetailsMissing pm form = false)
    (hins : insertOrder db.orders day (mkOrderData uid oid cart addr pm) = .error e) :
    handlePaymentSubmit db cart uid oid addr pm form day b =
      { db := db, cart := cart, error := some ("Error placing order: " ++ e),
        orderPlaced := false, newOrderId := none } := by
  unfold handlePaymentSubmit
  rw [if_neg (by simp [hcard]), hins]

theorem handlePaymentSubmit_itemsFail (db : DB) (cart : List CartItem) (uid oid : Nat)
    (addr : Address) (pm : String) (form : PaymentForm) (day : String)
    (orders' : List Order) (row : Order) (hcard : cardDetailsMissing pm form = false)
    (hins : insertOrder db.orders day (mkOrderData uid oid cart addr pm) =
      .ok (orders', row)) :
    handlePaymentSubmit db cart uid oid addr pm form day true =
      { db := { db with orders := orders' }, cart := cart,
        error := some "Error placing order: order items insert failed",
        orderPlaced := false, newOrderId := none } := by
  unfold handlePaymentSubmit
  rw [if_neg (by simp [hcard]), hins]
  rfl

theorem handlePaymentSubmit_success (db : DB) (cart : List CartItem) (uid oid : Nat)
    (addr : Address) (pm : String) (form : PaymentForm) (day : String)
    (orders' : List Order) (row : Order) (hcard : cardDetailsMissing pm form = false)
    (hins : insertOrder db.orders day (mkOrderData uid oid cart addr pm) =
      .ok (orders', row)) :
    handlePaymentSubmit db cart uid oid addr pm form day false =
      { db := { db with orders := orders', order_items := db.order_items ++ mkOrderItems row.id cart },
        cart := clearCart cart, error := none, orderPlaced := true,
        newOrderId := some row.order_number } := by
  unfold handlePaymentSubmit
  rw [if_neg (by simp [hcard]), hins]
  rfl

/-- A successful insert stores the candidate with only its order number
possibly rewritten by the trigger. -/
theorem insertOrder_ok_row {s : List Order} {day : String} {new : Order}
    {s' : List Order} {row : Order}
    (h : insertOrder s day new = .ok (s', row)) :
    set_order_number s day new = .ok row := by
  cases hset : set_order_number s day new with
  | error e => unfold insertOrder at h; rw [hset] at h; exact absurd h (by simp)
  | ok r =>
    rw [insertOrder_eq_ok s day new r hset] at h
    split at h
    · exact absurd h (by simp)
    · split at h
      · exact absurd h (by simp)
      · simp only [Except.ok.injEq, Prod.mk.injEq] at h
        rw [h.2]

/-- The trigger changes nothing but the order number. -/
theorem set_order_number_shape {orders : List Order} {day : String} {new row : Order}
    (h : set_order_number orders day new = .ok row) :
    ∃ n, row = { new with order_number := n } := by
  by_cases he : new.order_number = ""
  · cases hd : daySuffixMax orders day with
    | error e =>
      unfold set_order_number at h
      rw [if_pos he, hd] at h
      exact absurd h (by simp)
    | ok m =>
      unfold set_order_number at h
      rw [if_pos he, hd] at h
      exact ⟨"ORD-" ++ day ++ "-" ++ lpad (toString (m + 1)) 4 '0',
        (Except.ok.inj h).symm⟩
  · unfold set_order_number at h
    rw [if_neg he] at h
    exact ⟨new.order_number, (Except.ok.inj h).symm⟩

/-! ### Claim theorems about the checkout -/

/-- C9: every successful checkout submission over a non-empty cart with
subtotal S creates an order with shipping 0, discount 0, tax 0.08·S and
total 1.08·S, and order items that snapshot the product name, sku, price
and quantity with line total equal to unit price times quantity. -/
theorem claim_checkout_amounts (db : DB) (cart : List CartItem) (uid oid : Nat)
    (addr : Address) (pm : String) (form : PaymentForm) (day : String)
    (hcart : cart ≠ [])
    (hplaced : (handlePaymentSubmit db cart uid oid addr pm form day false).orderPlaced
      = true) :
    ∃ row,
      (handlePaymentSubmit db cart uid oid addr pm form day false).db.orders =
        db.orders ++ [row] ∧
      row.shipping_amount = 0 ∧
      row.discount_amount = 0 ∧
      row.tax_amount = 0.08 * getCartTotal cart ∧
      row.total_amount = 1.08 * getCartTotal cart ∧
      (handlePaymentSubmit db cart uid oid addr pm form day false).db.order_items =
        db.order_items ++ mkOrderItems row.id cart ∧
      ∀ oi ∈ mkOrderItems row.id cart, ∃ item ∈ cart,
        oi.product_name = item.product.name ∧ oi.product_sku = item.product.sku ∧
        oi.quantity = item.quantity ∧ oi.unit_price = item.product.price ∧
        oi.total_price = oi.unit_price * (oi.quantity : ℚ) := by
  cases hcard : cardDetailsMissing pm form with
  | true =>
    rw [handlePaymentSubmit_cardMissing db cart uid oid addr pm form day false hcard]
      at hplaced
    exact absurd hplaced (by simp)
  | false =>
    cases hins : insertOrder db.orders day (mkOrderData uid oid cart addr pm) with
    | error e =>
      rw [handlePaymentSubmit_orderFail db cart uid oid addr pm form day false e hcard hins]
        at hplaced
      exact absurd hplaced (by simp)
    | ok pr =>
      obtain ⟨orders', row⟩ := pr
      rw [handlePaymentSubmit_success db cart uid oid addr pm form day orders' row hcard hins]
      obtain ⟨hs', -, -⟩ := insertOrder_ok hins
      obtain ⟨n, hrow⟩ := set_order_number_shape (insertOrder_ok_row hins)
      subst hrow
      refine ⟨{ mkOrderData uid oid cart addr pm with order_number := n },
        hs', rfl, rfl, ?_, ?_, rfl, ?_⟩
      · exact mul_comm (getCartTotal cart) 0.08
      · exact mul_comm (getCartTotal cart) 1.08
      · intro oi hoi
        unfold mkOrderItems at hoi
        obtain ⟨item, hitem, rfl⟩ := List.mem_map.mp hoi
        exact ⟨item, hitem, rfl, rfl, rfl, rfl, rfl⟩

/-- Sample product and cart used by the checkout witnesses. -/
def prodSample : Product :=
  { id := 100, name := "Wireless Bluetooth Headphones", sku := some "WBH-001", price := 25 }

/-- Sample cart item: two units of the sample product. -/
def cartItemSample : CartItem :=
  { id := 200, product_id := 100, quantity := 2, product := prodSample }

/-- Empty card form (cash on delivery needs no card details). -/
def formBlank : PaymentForm :=
  { cardNumber := "", expiryDate := "", cvv := "", cardName := "" }

/-- Starting database for the checkout witnesses. -/
def dbStart : DB :=
  { addresses := [addrA], orders := [], order_items := [] }

/-- The order the sample checkout is expected to store. -/
def orderExpected : Order :=
  { mkOrderData 7 40 [cartItemSample] addrA "cod" with order_number := "ORD-20250917-0001" }

theorem claim_checkout_amounts_witness :
    ∃ row,
      (handlePaymentSubmit dbStart [cartItemSample] 7 40 addrA "cod" formBlank "20250917"
        false).db.orders = dbStart.orders ++ [row] ∧
      row.shipping_amount = 0 ∧
      row.discount_amount = 0 ∧
      row.tax_amount = 0.08 * getCartTotal [cartItemSample] ∧
      row.total_amount = 1.08 * getCartTotal [cartItemSample] ∧
      (handlePaymentSubmit dbStart [cartItemSample] 7 40 addrA "cod" formBlank "20250917"
        false).db.order_items = dbStart.order_items ++ mkOrderItems row.id [cartItemSample] ∧
      ∀ oi ∈ mkOrderItems row.id [cartItemSample], ∃ item ∈ [cartItemSample],
        oi.product_name = item.product.name ∧ oi.product_sku = item.product.sku ∧
        oi.quantity = item.quantity ∧ oi.unit_price = item.product.price ∧
        oi.total_price = oi.unit_price * (oi.quantity : ℚ) :=
  claim_checkout_amounts dbStart [cartItemSample] 7 40 addrA "cod" formBlank "20250917"
    (by decide) rfl

/-- C10: the cart is cleared only after both the order insert and the
order-items insert succeed; when the order-items insert fails the already
committed order row stays, the order-items table and the cart are unchanged
and an error is reported; when the order insert itself fails nothing
changes and the cart is kept. -/
theorem claim_checkout_failure_ordering (db : DB) (cart : List CartItem) (uid oid : Nat)
    (addr : Address) (pm : String) (form : PaymentForm) (day : String)
    (hcard : cardDetailsMissing pm form = false)
    (orders' : List Order) (row : Order)
    (hins : insertOrder db.orders day (mkOrderData uid oid cart addr pm) =
      .ok (orders', row)) :
    ((handlePaymentSubmit db cart uid oid addr pm form day true).db.orders =
        db.orders ++ [row] ∧
      (handlePaymentSubmit db cart uid oid addr pm form day true).db.order_items =
        db.order_items ∧
      (handlePaymentSubmit db cart uid oid addr pm form day true).cart = cart ∧
      (handlePaymentSubmit db cart uid oid addr pm form day true).error.isSome = true ∧
      (handlePaymentSubmit db cart uid oid addr pm form day true).orderPlaced = false) ∧
    ((handlePaymentSubmit db cart uid oid addr pm form day false).cart = [] ∧
      (handlePaymentSubmit db cart uid oid addr pm form day false).orderPlaced = true) ∧
    (∀ (db2 : DB) (cart2 : List CartItem) (e : String) (b : Bool),
      insertOrder db2.orders day (mkOrderData uid oid cart2 addr pm) = .error e →
        (handlePaymentSubmit db2 cart2 uid oid addr pm form day b).db = db2 ∧
        (handlePaymentSubmit db2 cart2 uid oid addr pm form day b).cart = cart2 ∧
        (handlePaymentSubmit db2 cart2 uid oid addr pm form day b).error.isSome = true) := by
  obtain ⟨hs', -, -⟩ := insertOrder_ok hins
  refine ⟨?_, ?_, ?_⟩
  · rw [handlePaymentSubmit_itemsFail db cart uid oid addr pm form day orders' row hcard hins]
    exact ⟨hs', rfl, rfl, rfl, rfl⟩
  · rw [handlePaymentSubmit_success db cart uid oid addr pm form day orders' row hcard hins]
    exact ⟨rfl, rfl⟩
  · intro db2 cart2 e b hfail
    rw [handlePaymentSubmit_orderFail db2 cart2 uid oid addr pm form day b e hcard hfail]
    exact ⟨rfl, rfl, rfl⟩

theorem claim_checkout_failure_ordering_witness :
    ((handlePaymentSubmit dbStart [cartItemSample] 7 40 addrA "cod" formBlank "20250917"
        true).db.orders = dbStart.orders ++ [orderExpected] ∧
      (handlePaymentSubmit dbStart [cartItemSample] 7 40 addrA "cod" formBlank "20250917"
        true).db.order_items = dbStart.order_items ∧
      (handlePaymentSubmit dbStart [cartItemSample] 7 40 addrA "cod" formBlank "20250917"
        true).cart = [cartItemSample] ∧
      (handlePaymentSubmit dbStart [cartItemSample] 7 40 addrA "cod" formBlank "20250917"
        true).error.isSome = true ∧
      (handlePaymentSubmit dbStart [cartItemSample] 7 40 addrA "cod" formBlank "20250917"
        true).orderPlaced = false) ∧
    ((handlePaymentSubmit dbStart [cartItemSample] 7 40 addrA "cod" formBlank "20250917"
        false).cart = [] ∧
      (handlePaymentSubmit dbStart [cartItemSample] 7 40 addrA "cod" formBlank "20250917"
        false).orderPlaced = true) ∧
    (∀ (db2 : DB) (cart2 : List CartItem) (e : String) (b : Bool),
      insertOrder db2.orders "20250917" (mkOrderData 7 40 cart2 addrA "cod") = .error e →
        (handlePaymentSubmit db2 cart2 7 40 addrA "cod" formBlank "20250917" b).db = db2 ∧
        (handlePaymentSubmit db2 cart2 7 40 addrA "cod" formBlank "20250917" b).cart = cart2 ∧
        (handlePaymentSubmit db2 cart2 7 40 addrA "cod" formBlank "20250917" b).error.isSome
          = true) :=
  claim_checkout_failure_ordering dbStart [cartItemSample] 7 40 addrA "cod" formBlank
    "20250917" (by decide) [orderExpected] orderExpected rfl

/-- C8: the shipping address stored on an order is a field-by-field copy of
the selected address taken at order-creation time, and subsequent address
inserts, updates or deletes touch only the addresses table, leaving the
orders (and their stored shipping addresses) and the order items of every
database state unchanged. -/
theorem claim_shipping_snapshot (db : DB) (cart : List CartItem) (uid oid : Nat)
    (addr : Address) (pm : String) (day : String)
    (orders' : List Order) (row : Order)
    (hins : insertOrder db.orders day (mkOrderData uid oid cart addr pm) =
      .ok (orders', row)) :
    (row.shipping_address.name = addr.name ∧
      row.shipping_address.address_line_1 = addr.address_line_1 ∧
      row.shipping_address.address_line_2 = addr.address_line_2 ∧
      row.shipping_address.city = addr.city ∧
      row.shipping_address.state = addr.state ∧
      row.shipping_address.postal_code = addr.postal_code ∧
      row.shipping_address.country = addr.country ∧
      row.shipping_address.phone = addr.phone) ∧
    (∀ (db2 : DB) (a : Address) (i : Nat),
      (dbInsertAddress db2 a).orders = db2.orders ∧
      (dbUpdateAddress db2 a).orders = db2.orders ∧
      (dbDeleteAddress db2 i).orders = db2.orders ∧
      (dbInsertAddress db2 a).order_items = db2.order_items ∧
      (dbUpdateAddress db2 a).order_items = db2.order_items ∧
      (dbDeleteAddress db2 i).order_items = db2.order_items) := by
  obtain ⟨n, hrow⟩ := set_order_number_shape (insertOrder_ok_row hins)
  subst hrow
  exact ⟨⟨rfl, rfl, rfl, rfl, rfl, rfl, rfl, rfl⟩,
    fun db2 a i => ⟨rfl, rfl, rfl, rfl, rfl, rfl⟩⟩

theorem claim_shipping_snapshot_witness :
    (orderExpected.shipping_address.name = addrA.name ∧
      orderExpected.shipping_address.address_line_1 = addrA.address_line_1 ∧
      orderExpected.shipping_address.address_line_2 = addrA.address_line_2 ∧
      orderExpected.shipping_address.city = addrA.city ∧
      orderExpected.shipping_address.state = addrA.state ∧
      orderExpected.shipping_address.postal_code = addrA.postal_code ∧
      orderExpected.shipping_address.country = addrA.country ∧
      orderExpected.shipping_address.phone = addrA.phone) ∧
    (∀ (db2 : DB) (a : Address) (i : Nat),
      (dbInsertAddress db2 a).orders = db2.orders ∧
      (dbUpdateAddress db2 a).orders = db2.orders ∧
      (dbDeleteAddress db2 i).orders = db2.orders ∧
      (dbInsertAddress db2 a).order_items = db2.order_items ∧
      (dbUpdateAddress db2 a).order_items = db2.order_items ∧
      (dbDeleteAddress db2 i).order_items = db2.order_items) :=
  claim_shipping_snapshot dbStart [cartItemSample] 7 40 addrA "cod" "20250917"
    [orderExpected] orderExpected rfl

end ECommerce
